import Mathlib

/-!
# Shallow embedding of the household expense tracker (`app.py`)

Amounts are modelled as exact rationals `ℚ` (the source uses Python floats;
every operation involved is addition, subtraction, multiplication, division by
constants and `max`, so the rational model is the exact-arithmetic reading the
spec's "within 1e-9" tolerance refers to).  SQL `NULL` is modelled as
`Option`, Python's `x or d` fallback as explicit helpers.  Dates are modelled
through the proleptic Gregorian calendar (Rata Die day numbers), which is what
Python's `datetime.date` implements; `date.weekday()` returns 0 for Monday.
-/

namespace GestionCasa

/-- Python `x or 0` applied to a nullable numeric column: `None` → 0
(and `0` stays `0`). Used for `gasto.get('monto_fijo_ricardo', 0) or 0`. -/
def pyOrZero (x : Option ℚ) : ℚ :=
  match x with
  | none => 0
  | some v => if v = 0 then 0 else v

/-- Python `x or 50.0` applied to a nullable numeric column: `None` → 50,
and — because `0.0` is falsy in Python — `0` → 50 as well. Used for
`gasto.get('porcentaje_ricardo', 50.0) or 50.0`. -/
def pyOr50 (x : Option ℚ) : ℚ :=
  match x with
  | none => 50
  | some v => if v = 0 then 50 else v

/-! ## Calendar (proleptic Gregorian, as in Python `datetime.date`) -/

/-- Gregorian leap-year test (`calendar.isleap`). -/
def esBisiesto (anio : Nat) : Bool :=
  (anio % 4 == 0 && anio % 100 != 0) || anio % 400 == 0

/-- `calendar.monthrange(anio, mes)[1]`: number of days of the month.
Months outside 1..12 raise in Python; here they map to `0`. -/
def diasDelMes (mes anio : Nat) : Nat :=
  match mes with
  | 1 => 31
  | 2 => if esBisiesto anio then 29 else 28
  | 3 => 31
  | 4 => 30
  | 5 => 31
  | 6 => 30
  | 7 => 31
  | 8 => 31
  | 9 => 30
  | 10 => 31
  | 11 => 30
  | 12 => 31
  | _ => 0

/-- Days of the year strictly before month `mes`. -/
def diasAntesDelMes (mes anio : Nat) : Nat :=
  (List.range (mes - 1)).foldl (fun acc i => acc + diasDelMes (i + 1) anio) 0

/-- Rata Die day number of a proleptic Gregorian date: `date(1,1,1)` is day 1. -/
def rataDie (anio mes dia : Nat) : Nat :=
  let y := anio - 1
  365 * y + y / 4 - y / 100 + y / 400 + diasAntesDelMes mes anio + dia

/-- `date(anio, mes, dia).weekday()`: 0 = Monday … 6 = Sunday.
`date(1,1,1)` is a Monday. -/
def diaSemana (anio mes dia : Nat) : Nat :=
  (rataDie anio mes dia + 6) % 7

/-- Fuelled form of the `while fecha_actual <= ultimo_dia` loop of
`calcular_semanas_del_mes`: counts the dates
`fecha_actual, fecha_actual+7, …` that are `≤ ultimo_dia`. -/
def contar_semanas_aux : Nat → Nat → Nat → Nat
  | 0, _, _ => 0
  | fuel + 1, fecha_actual, ultimo_dia =>
    if fecha_actual ≤ ultimo_dia then
      contar_semanas_aux fuel (fecha_actual + 7) ultimo_dia + 1
    else 0

/-- The `while fecha_actual <= ultimo_dia` loop of `calcular_semanas_del_mes`.
The fuel `ultimo_dia + 1` strictly exceeds the number of iterations (each
iteration advances `fecha_actual` by 7), so this equals the source's
unbounded loop; `contar_semanas_eq` below gives the closed form. -/
def contar_semanas (fecha_actual ultimo_dia : Nat) : Nat :=
  contar_semanas_aux (ultimo_dia + 1) fecha_actual ultimo_dia

/-- `calcular_semanas_del_mes(mes, anio)` (app.py 481–511): number of
Monday-to-Sunday weeks whose Monday falls inside the month.  Dates within the
month are represented by their day-of-month number. -/
def calcular_semanas_del_mes (mes anio : Nat) : Nat :=
  let ultimo_dia := diasDelMes mes anio
  let w := diaSemana anio mes 1
  let primer_lunes :=
    if w = 0 then 1
    else
      let dias_hasta_lunes := (7 - w) % 7
      let dias_hasta_lunes := if dias_hasta_lunes = 0 then 7 else dias_hasta_lunes
      1 + dias_hasta_lunes
  if primer_lunes > ultimo_dia then 0
  else contar_semanas primer_lunes ultimo_dia

/-- `calcular_monto_mensual_segun_frecuencia` (app.py 541–557). -/
def calcular_monto_mensual_segun_frecuencia
    (monto_base : ℚ) (frecuencia : String) (mes anio : Nat) : ℚ :=
  if frecuencia = "Semanal" then
    monto_base * (calcular_semanas_del_mes mes anio : ℚ)
  else if frecuencia = "Quincenal" then
    monto_base * 2
  else if frecuencia = "Anual" then
    monto_base / 12
  else
    monto_base

/-! ## Data model (the four SQLite tables) -/

/-- A row of `gastos_mensuales`. -/
structure Gasto where
  id : Nat
  concepto : String
  monto_total : ℚ
  frecuencia : String
  tipo_monto : String := "fijo"
  tipo_distribucion : String := "50/50"
  monto_fijo_ricardo : Option ℚ := none
  monto_fijo_wendy : Option ℚ := none
  porcentaje_ricardo : Option ℚ := some 50
  grupo : Option String := none
  activo : Bool := true
deriving Repr, DecidableEq

/-- A row of `montos_mensuales` (per-month override; UNIQUE(gasto_id, mes, anio)). -/
structure MontoMensual where
  gasto_id : Nat
  mes : Nat
  anio : Nat
  monto_total : ℚ
deriving Repr, DecidableEq

/-- A row of `pagos`. -/
structure Pago where
  gasto_id : Nat
  mes : Nat
  anio : Nat
  quien_pago : String
  monto_pagado : ℚ
  semana : Option Nat := none
deriving Repr, DecidableEq

/-- A row of `grupos_distribucion`. -/
structure Grupo where
  id : Nat
  nombre : String
  descripcion : String := ""
  monto_fijo_ricardo : Option ℚ := none
  monto_fijo_wendy : Option ℚ := none
  quien_paga_fijo : String
  activo : Bool := true
deriving Repr, DecidableEq

/-- A row of `gastos_en_grupo` (UNIQUE(grupo_id, gasto_id)). -/
structure GastoEnGrupo where
  grupo_id : Nat
  gasto_id : Nat
deriving Repr, DecidableEq

/-- The database state: the rows of each table, in insertion order. -/
structure DB where
  gastos : List Gasto := []
  montos_mensuales : List MontoMensual := []
  pagos : List Pago := []
  grupos : List Grupo := []
  gastos_en_grupo : List GastoEnGrupo := []
deriving Repr, DecidableEq

/-! ## Monthly amount store -/

/-- `obtener_monto_del_mes` (app.py 177–198): the override amount for this
exact (gasto, mes, anio) if one exists, else the expense's base amount, else
`0.0` when no expense row with this id exists either.  Note it does NOT look
at `tipo_monto`. -/
def obtener_monto_del_mes (db : DB) (gasto_id mes anio : Nat) : ℚ :=
  match db.montos_mensuales.find?
      (fun m => m.gasto_id == gasto_id && m.mes == mes && m.anio == anio) with
  | some m => m.monto_total
  | none =>
    match db.gastos.find? (fun g => g.id == gasto_id) with
    | some g => g.monto_total
    | none => 0

/-- The SQL `UPDATE gastos_mensuales SET tipo_distribucion = t WHERE id = gid`
shared by the group CRUD operations. -/
def marcarDistribucion (l : List Gasto) (gid : Nat) (t : String) : List Gasto :=
  l.map (fun g => if g.id = gid then { g with tipo_distribucion := t } else g)

/-- A row of the query in `obtener_montos_configurados`. -/
structure GastoConf where
  id : Nat
  concepto : String
  frecuencia : String
  tipo_monto : String
  monto_total : ℚ
  personalizado : Bool
  tipo_distribucion : String
  monto_fijo_ricardo : Option ℚ
  monto_fijo_wendy : Option ℚ
  porcentaje_ricardo : Option ℚ
  grupo : Option String
deriving Repr, DecidableEq

/-- The row the query in `obtener_montos_configurados` produces for one
active expense: the resolved amount is `COALESCE(override, base)` for
`variable` expenses and always the base amount for `fijo` ones;
`personalizado` records whether an override row was joined. -/
def confRow (db : DB) (mes anio : Nat) (g : Gasto) : GastoConf :=
  let override := db.montos_mensuales.find?
    (fun m => m.gasto_id == g.id && m.mes == mes && m.anio == anio)
  { id := g.id
    concepto := g.concepto
    frecuencia := g.frecuencia
    tipo_monto := g.tipo_monto
    monto_total :=
      if g.tipo_monto = "variable" then
        match override with
        | some m => m.monto_total
        | none => g.monto_total
      else g.monto_total
    personalizado := override.isSome
    tipo_distribucion := g.tipo_distribucion
    monto_fijo_ricardo := g.monto_fijo_ricardo
    monto_fijo_wendy := g.monto_fijo_wendy
    porcentaje_ricardo := g.porcentaje_ricardo
    grupo := g.grupo }

/-- `obtener_montos_configurados` (app.py 238–264): one `confRow` per active
expense.  The SQL `ORDER BY g.grupo, g.concepto` is dropped: no verified
property depends on row order (only sums and membership are used
downstream). -/
def obtener_montos_configurados (db : DB) (mes anio : Nat) : List GastoConf :=
  (db.gastos.filter (·.activo)).map (confRow db mes anio)

/-! ## Split calculator -/

/-- `calcular_distribucion_pago` (app.py 268–292): how much each person owes,
given the row's distribution fields and the resolved monthly total.
Returns `(monto_ricardo, monto_wendy)`. -/
def calcular_distribucion_pago (gasto : GastoConf) (monto_total_mes : ℚ) : ℚ × ℚ :=
  let tipo_dist := gasto.tipo_distribucion
  if tipo_dist = "fijo_ricardo" then
    let monto_ricardo := pyOrZero gasto.monto_fijo_ricardo
    (monto_ricardo, max 0 (monto_total_mes - monto_ricardo))
  else if tipo_dist = "fijo_wendy" then
    let monto_wendy := pyOrZero gasto.monto_fijo_wendy
    (max 0 (monto_total_mes - monto_wendy), monto_wendy)
  else if tipo_dist = "personalizado" then
    let porcentaje_r := pyOr50 gasto.porcentaje_ricardo
    let monto_ricardo := monto_total_mes * (porcentaje_r / 100)
    (monto_ricardo, monto_total_mes - monto_ricardo)
  else
    (monto_total_mes / 2, monto_total_mes / 2)

/-! ## Distribution groups -/

/-- `crear_grupo_distribucion` (app.py 296–337): creates a group (with a
fresh AUTOINCREMENT id) and links the given expenses to it, forcing each
linked expense's `tipo_distribucion` to `"agrupado"`.  A duplicate id in
`gastos_ids` violates `UNIQUE(grupo_id, gasto_id)`, the exception rolls the
whole transaction back and `None` is returned. -/
def crear_grupo_distribucion (db : DB) (nombre descripcion quien_paga_fijo : String)
    (monto_fijo : ℚ) (gastos_ids : List Nat) : DB × Option Nat :=
  if gastos_ids.Nodup then
    let monto_r := if quien_paga_fijo = "Ricardo" then some monto_fijo else none
    let monto_w := if quien_paga_fijo = "Wendy" then some monto_fijo else none
    let grupo_id := (db.grupos.map (·.id)).foldr max 0 + 1
    let db1 := { db with grupos := db.grupos ++
      [{ id := grupo_id, nombre := nombre, descripcion := descripcion,
         monto_fijo_ricardo := monto_r, monto_fijo_wendy := monto_w,
         quien_paga_fijo := quien_paga_fijo }] }
    let db2 := gastos_ids.foldl (fun d gid =>
      { d with
        gastos_en_grupo := d.gastos_en_grupo ++ [⟨grupo_id, gid⟩],
        gastos := marcarDistribucion d.gastos gid "agrupado" }) db1
    (db2, some grupo_id)
  else
    (db, none)

/-- `agregar_gasto_a_grupo` (app.py 411–433): inserts the membership row and
sets the expense's `tipo_distribucion` to `"agrupado"`.  When the membership
row already exists, the `UNIQUE(grupo_id, gasto_id)` constraint raises
`IntegrityError`, nothing is committed and `False` is returned. -/
def agregar_gasto_a_grupo (db : DB) (grupo_id gasto_id : Nat) : DB × Bool :=
  if db.gastos_en_grupo.any
      (fun ge => ge.grupo_id == grupo_id && ge.gasto_id == gasto_id) then
    (db, false)
  else
    ({ db with
        gastos_en_grupo := db.gastos_en_grupo ++ [⟨grupo_id, gasto_id⟩],
        gastos := marcarDistribucion db.gastos gasto_id "agrupado" },
     true)

/-- `remover_gasto_de_grupo` (app.py 435–454): deletes the membership row (if
any) and sets the expense's `tipo_distribucion` to `"50/50"` unconditionally.
The returned Bool is `cursor.rowcount > 0` where the cursor's last statement
is the UPDATE on `gastos_mensuales`: it reports whether an expense row with
this id was updated, not whether a membership row was deleted. -/
def remover_gasto_de_grupo (db : DB) (grupo_id gasto_id : Nat) : DB × Bool :=
  ({ db with
      gastos_en_grupo := db.gastos_en_grupo.filter
        (fun ge => !(ge.grupo_id == grupo_id && ge.gasto_id == gasto_id)),
      gastos := marcarDistribucion db.gastos gasto_id "50/50" },
   db.gastos.any (fun g => g.id == gasto_id))

/-- `eliminar_grupo_distribucion` (app.py 456–479): sets every member
expense's `tipo_distribucion` to `"50/50"` and marks the group inactive.
The returned Bool is the rowcount of the last UPDATE (on
`grupos_distribucion`): whether a group row with this id exists. -/
def eliminar_grupo_distribucion (db : DB) (grupo_id : Nat) : DB × Bool :=
  let miembros := (db.gastos_en_grupo.filter
    (fun ge => ge.grupo_id == grupo_id)).map (·.gasto_id)
  ({ db with
      gastos := db.gastos.map (fun g =>
        if g.id ∈ miembros then { g with tipo_distribucion := "50/50" } else g),
      grupos := db.grupos.map (fun gr =>
        if gr.id = grupo_id then { gr with activo := false } else gr) },
   db.grupos.any (fun gr => gr.id == grupo_id))

/-- What `obtener_grupos_distribucion` returns for one group: the group's
split fields plus the `(id, concepto, monto_total)` triples of its active
member expenses. -/
structure GrupoInfo where
  id : Nat
  nombre : String
  descripcion : String
  monto_fijo_ricardo : Option ℚ
  monto_fijo_wendy : Option ℚ
  quien_paga_fijo : String
  gastos : List (Nat × String × ℚ)
deriving Repr, DecidableEq

/-- The record `obtener_grupos_distribucion` builds for one group row: its
split fields plus the member query (INNER JOIN of `gastos_en_grupo` with the
active expenses). -/
def grupoInfoDe (db : DB) (gr : Grupo) : GrupoInfo :=
  { id := gr.id
    nombre := gr.nombre
    descripcion := gr.descripcion
    monto_fijo_ricardo := gr.monto_fijo_ricardo
    monto_fijo_wendy := gr.monto_fijo_wendy
    quien_paga_fijo := gr.quien_paga_fijo
    gastos := (db.gastos_en_grupo.filter (fun ge => ge.grupo_id == gr.id)).filterMap
      (fun ge =>
        (db.gastos.find? (fun g => g.id == ge.gasto_id && g.activo)).map
          (fun g => (g.id, g.concepto, g.monto_total))) }

/-- `obtener_grupos_distribucion` (app.py 339–376): all active groups, each
with the `(id, concepto, monto_total)` of its active member expenses.  The
`ORDER BY` clauses are dropped: no verified property depends on the order of
groups or of members. -/
def obtener_grupos_distribucion (db : DB) : List GrupoInfo :=
  (db.grupos.filter (·.activo)).map (grupoInfoDe db)

/-- The active member expenses of a group, as full rows: the same INNER JOIN
as in `grupoInfoDe` before projecting to `(id, concepto, monto_total)`. -/
def miembrosActivos (db : DB) (grupo_id : Nat) : List Gasto :=
  (db.gastos_en_grupo.filter (fun ge => ge.grupo_id == grupo_id)).filterMap
    (fun ge => db.gastos.find? (fun g => g.id == ge.gasto_id && g.activo))

/-! ## Payment ledger -/

/-- `registrar_pago` (app.py 561–573): append-only insert, no duplicate check. -/
def registrar_pago (db : DB) (gasto_id mes anio : Nat) (quien_pago : String)
    (monto_pagado : ℚ) (semana : Option Nat := none) : DB :=
  { db with pagos := db.pagos ++
      [{ gasto_id := gasto_id, mes := mes, anio := anio, quien_pago := quien_pago,
         monto_pagado := monto_pagado, semana := semana }] }

/-- `verificar_pago_existente` (app.py 589–606): `COUNT(*) > 0` over the
matching payments; when `semana` is `none` the week column is not filtered. -/
def verificar_pago_existente (db : DB) (gasto_id mes anio : Nat)
    (quien_pago : String) (semana : Option Nat := none) : Bool :=
  match semana with
  | some s => db.pagos.any (fun p =>
      p.gasto_id == gasto_id && p.mes == mes && p.anio == anio &&
      p.quien_pago == quien_pago && p.semana == some s)
  | none => db.pagos.any (fun p =>
      p.gasto_id == gasto_id && p.mes == mes && p.anio == anio &&
      p.quien_pago == quien_pago)

/-- `obtener_semanas_pagadas` (app.py 608–620): the `semana` values of all
matching payments with `semana IS NOT NULL`, sorted ascending (`ORDER BY
semana`).  There is no `DISTINCT`: duplicate weeks appear once per payment
row. -/
def obtener_semanas_pagadas (db : DB) (gasto_id mes anio : Nat)
    (quien_pago : String) : List Nat :=
  List.insertionSort (· ≤ ·)
    ((db.pagos.filter (fun p =>
        p.gasto_id == gasto_id && p.mes == mes && p.anio == anio &&
        p.quien_pago == quien_pago && p.semana.isSome)).filterMap
      (fun p => p.semana))

/-! ## Monthly statement table -/

/-- The `id` column of a statement row: group rows carry the string
`"grupo_{id}"` in the source, individual rows the integer expense id. -/
inductive FilaId
  | grupo (id : Nat)
  | gasto (id : Nat)
deriving Repr, DecidableEq

/-- One row of the DataFrame built by `calcular_tabla_mensual`.  The paid
columns hold the display strings `"✅"` / `"❌"` exactly as in the source. -/
structure FilaTabla where
  id : FilaId
  concepto : String
  monto_total : ℚ
  frecuencia : String
  debe_ricardo : ℚ
  debe_wendy : ℚ
  ricardo_pago : String
  wendy_pago : String
deriving Repr, DecidableEq

/-- One iteration of the member loop in the group-processing part of
`calcular_tabla_mensual` (app.py 679–698): the accumulator carries the
running total, the member labels, and the `gastos_procesados` ids.  The
month's amount comes from `obtener_monto_del_mes` (overrides applied
regardless of `tipo_monto`), the frequency from the member's row in
`gastos_df`; members missing from `gastos_df` contribute nothing and are not
marked processed. -/
def pasoGrupo (db : DB) (gastos_df : List GastoConf) (mes anio : Nat)
    (acc : ℚ × List String × List Nat) (gi : Nat × String × ℚ) :
    ℚ × List String × List Nat :=
  let monto_mes_actualizado := obtener_monto_del_mes db gi.1 mes anio
  match gastos_df.find? (fun g => g.id == gi.1) with
  | some gasto_row =>
    let monto_mes := calcular_monto_mensual_segun_frecuencia
      monto_mes_actualizado gasto_row.frecuencia mes anio
    (acc.1 + monto_mes, acc.2.1 ++ [gi.2.1], acc.2.2 ++ [gi.1])
  | none => acc

/-- The group-processing loop body of `calcular_tabla_mensual`
(app.py 667–736): builds the group's row and the member ids added to
`gastos_procesados`. -/
def procesarGrupo (db : DB) (gastos_df : List GastoConf) (mes anio : Nat)
    (grupo : GrupoInfo) : FilaTabla × List Nat :=
  let paso := grupo.gastos.foldl (pasoGrupo db gastos_df mes anio) (0, [], [])
  let monto_total_grupo := paso.1
  let conceptos_grupo := paso.2.1
  let quien_paga := grupo.quien_paga_fijo
  let reparto :=
    if quien_paga = "Ricardo" then
      let monto_fijo := pyOrZero grupo.monto_fijo_ricardo
      (monto_fijo, max 0 (monto_total_grupo - monto_fijo))
    else if quien_paga = "Wendy" then
      let monto_fijo := pyOrZero grupo.monto_fijo_wendy
      (max 0 (monto_total_grupo - monto_fijo), monto_fijo)
    else
      (monto_total_grupo / 2, monto_total_grupo / 2)
  let ricardo_pago := grupo.gastos.all
    (fun gi => verificar_pago_existente db gi.1 mes anio "Ricardo")
  let wendy_pago := grupo.gastos.all
    (fun gi => verificar_pago_existente db gi.1 mes anio "Wendy")
  let concepto_grupo :=
    "📦 " ++ grupo.nombre ++ " (" ++ String.intercalate " + " conceptos_grupo ++ ")"
  ({ id := .grupo grupo.id
     concepto := concepto_grupo ++ " 💰" ++ quien_paga.take 1
     monto_total := monto_total_grupo
     frecuencia := "Grupo"
     debe_ricardo := reparto.1
     debe_wendy := reparto.2
     ricardo_pago := if ricardo_pago then "✅" else "❌"
     wendy_pago := if wendy_pago then "✅" else "❌" },
   paso.2.2)

/-- The individual-expense loop body of `calcular_tabla_mensual`
(app.py 739–808): the row for one ungrouped active expense. -/
def procesarGastoIndividual (db : DB) (mes anio : Nat) (gasto : GastoConf) :
    FilaTabla :=
  let monto_total := calcular_monto_mensual_segun_frecuencia
    gasto.monto_total gasto.frecuencia mes anio
  let reparto := calcular_distribucion_pago gasto monto_total
  let estado :=
    if gasto.frecuencia = "Semanal" then
      let semanas_del_mes := calcular_semanas_del_mes mes anio
      let ricardo_semanas := obtener_semanas_pagadas db gasto.id mes anio "Ricardo"
      let wendy_semanas := obtener_semanas_pagadas db gasto.id mes anio "Wendy"
      (ricardo_semanas.length == semanas_del_mes,
       wendy_semanas.length == semanas_del_mes,
       gasto.concepto ++ " (" ++ toString ricardo_semanas.length ++ "/" ++
         toString semanas_del_mes ++ " sem)")
    else
      (verificar_pago_existente db gasto.id mes anio "Ricardo",
       verificar_pago_existente db gasto.id mes anio "Wendy",
       gasto.concepto)
  let indicador :=
    if gasto.tipo_monto = "variable" && gasto.personalizado then " 📝"
    else if gasto.tipo_monto = "variable" then " 🔄"
    else ""
  let dist_tag :=
    if gasto.tipo_distribucion = "fijo_ricardo" then " 💰R"
    else if gasto.tipo_distribucion = "fijo_wendy" then " 💰W"
    else if gasto.tipo_distribucion = "personalizado" then " ⚖️"
    else ""
  { id := .gasto gasto.id
    concepto := estado.2.2 ++ indicador ++ dist_tag
    monto_total := monto_total
    frecuencia := gasto.frecuencia
    debe_ricardo := reparto.1
    debe_wendy := reparto.2
    ricardo_pago := if estado.1 then "✅" else "❌"
    wendy_pago := if estado.2.1 then "✅" else "❌" }

/-- `calcular_tabla_mensual` (app.py 645–810): one row per active non-empty
group, then one row per active expense that was not processed as a group
member and whose `tipo_distribucion` is not `"agrupado"`. -/
def calcular_tabla_mensual (db : DB) (mes anio : Nat) : List FilaTabla :=
  let gastos_df := obtener_montos_configurados db mes anio
  if gastos_df.isEmpty then []
  else
    let grupos := (obtener_grupos_distribucion db).filter (fun gr => !gr.gastos.isEmpty)
    let pasos := grupos.map (procesarGrupo db gastos_df mes anio)
    let gastos_procesados := (pasos.map (fun p => p.2)).flatten
    let filas_ind := (gastos_df.filter (fun g =>
      !(gastos_procesados.contains g.id) && g.tipo_distribucion != "agrupado")).map
        (procesarGastoIndividual db mes anio)
    pasos.map (fun p => p.1) ++ filas_ind

/-! ## Net balance -/

/-- The numeric fields of the dict returned by `calcular_saldo_neto`.  The
`mensaje` field of the source is display-only string formatting and is not
modelled. -/
structure SaldoNeto where
  total_debe_cada_uno : ℚ
  pagado_ricardo : ℚ
  pagado_wendy : ℚ
  saldo_ricardo : ℚ
  saldo_wendy : ℚ
deriving Repr, DecidableEq

/-- `calcular_saldo_neto` (app.py 812–856): each person's "owed" figure is
HALF of the sum of the resolved monthly amounts of all active expenses
(`gastos_df['monto_total'].sum() / 2`) — no frequency conversion and no
per-expense distribution rule; "paid" is the global `SUM(monto_pagado)` of
that person's payments for the month (`NULL` → 0); the balance is
owed − paid, not clamped. -/
def calcular_saldo_neto (db : DB) (mes anio : Nat) : SaldoNeto :=
  let gastos_df := obtener_montos_configurados db mes anio
  let total_debe_cada_uno :=
    if gastos_df.isEmpty then 0 else (gastos_df.map (·.monto_total)).sum / 2
  let pagado_ricardo := ((db.pagos.filter (fun p =>
    p.mes == mes && p.anio == anio && p.quien_pago == "Ricardo")).map
      (·.monto_pagado)).sum
  let pagado_wendy := ((db.pagos.filter (fun p =>
    p.mes == mes && p.anio == anio && p.quien_pago == "Wendy")).map
      (·.monto_pagado)).sum
  { total_debe_cada_uno := total_debe_cada_uno
    pagado_ricardo := pagado_ricardo
    pagado_wendy := pagado_wendy
    saldo_ricardo := total_debe_cada_uno - pagado_ricardo
    saldo_wendy := total_debe_cada_uno - pagado_wendy }

/-! ## Concrete instances used in counterexamples and witnesses -/

/-- A FixedA-split row whose configured fixed amount (100) exceeds the
monthly total it will be applied to (80). -/
def gastoFijoExcedido : GastoConf :=
  { id := 1, concepto := "Alquiler", frecuencia := "Mensual", tipo_monto := "fijo",
    monto_total := 80, personalizado := false, tipo_distribucion := "fijo_ricardo",
    monto_fijo_ricardo := some 100, monto_fijo_wendy := none,
    porcentaje_ricardo := some 50, grupo := none }

/-- A FixedA-split row with fixed amount 70, to be applied to total 100. -/
def gastoFijoParcial : GastoConf :=
  { id := 1, concepto := "Alquiler", frecuencia := "Mensual", tipo_monto := "fijo",
    monto_total := 100, personalizado := false, tipo_distribucion := "fijo_ricardo",
    monto_fijo_ricardo := some 70, monto_fijo_wendy := none,
    porcentaje_ricardo := some 50, grupo := none }

/-- A FixedA-split monthly expense (base 100, fixed share 70 for Ricardo). -/
def gastoC2 : Gasto :=
  { id := 1, concepto := "Luz", monto_total := 100, frecuencia := "Mensual",
    tipo_monto := "fijo", tipo_distribucion := "fijo_ricardo",
    monto_fijo_ricardo := some 70 }

/-- Database with the single FixedA expense `gastoC2` and no payments. -/
def dbC2 : DB := { gastos := [gastoC2] }

/-- Database where Ricardo paid 20 against an expense id (99) that does not
exist, while the only defined expense totals 10. -/
def dbSobrepago : DB :=
  { gastos := [{ id := 1, concepto := "Cable", monto_total := 10,
                 frecuencia := "Mensual" }],
    pagos := [{ gasto_id := 99, mes := 1, anio := 2024, quien_pago := "Ricardo",
                monto_pagado := 20 }] }

/-- A Fixed-amount-kind expense (base 100) that belongs to a group. -/
def gastoC3 : Gasto :=
  { id := 1, concepto := "Agua", monto_total := 100, frecuencia := "Mensual",
    tipo_monto := "fijo", tipo_distribucion := "agrupado" }

/-- Database where the Fixed-kind `gastoC3` is in an active group and an
override row (150) exists for (expense 1, March 2025). -/
def dbC3 : DB :=
  { gastos := [gastoC3],
    montos_mensuales := [{ gasto_id := 1, mes := 3, anio := 2025,
                           monto_total := 150 }],
    grupos := [{ id := 1, nombre := "Servicios", quien_paga_fijo := "Ricardo",
                 monto_fijo_ricardo := some 70 }],
    gastos_en_grupo := [{ grupo_id := 1, gasto_id := 1 }] }

/-- Group member expense with monthly total 40. -/
def gastoC4a : Gasto :=
  { id := 1, concepto := "Cocina", monto_total := 40, frecuencia := "Mensual",
    tipo_monto := "fijo", tipo_distribucion := "agrupado" }

/-- Group member expense with monthly total 60. -/
def gastoC4b : Gasto :=
  { id := 2, concepto := "Comedor", monto_total := 60, frecuencia := "Mensual",
    tipo_monto := "fijo", tipo_distribucion := "agrupado" }

/-- Group whose payer of the fixed amount is Ricardo with 70. -/
def grupoC4 : Grupo :=
  { id := 1, nombre := "Hogar", quien_paga_fijo := "Ricardo",
    monto_fijo_ricardo := some 70 }

/-- Database with a two-member group (totals 40 and 60) whose payer of the
fixed amount is Ricardo with 70; no payments yet. -/
def dbC4 : DB :=
  { gastos := [gastoC4a, gastoC4b],
    grupos := [grupoC4],
    gastos_en_grupo := [{ grupo_id := 1, gasto_id := 1 },
                        { grupo_id := 1, gasto_id := 2 }] }

/-- `dbC4` after Ricardo paid only the first member expense. -/
def dbC4unPago : DB :=
  { dbC4 with pagos := [{ gasto_id := 1, mes := 1, anio := 2024,
                          quien_pago := "Ricardo", monto_pagado := 40 }] }

/-- `dbC4` after Ricardo paid both member expenses. -/
def dbC4dosPagos : DB :=
  { dbC4 with pagos := [{ gasto_id := 1, mes := 1, anio := 2024,
                          quien_pago := "Ricardo", monto_pagado := 40 },
                        { gasto_id := 2, mes := 1, anio := 2024,
                          quien_pago := "Ricardo", monto_pagado := 60 }] }

/-- A weekly expense (base 10 per week), equal split, ungrouped. -/
def gastoC5 : Gasto :=
  { id := 1, concepto := "Mercado", monto_total := 10, frecuencia := "Semanal" }

/-- `gastoC5` with Ricardo having paid week 1 five separate times in January
2024 (a 5-week month): five records, all for the same week. -/
def dbC5 : DB :=
  { gastos := [gastoC5],
    pagos := [{ gasto_id := 1, mes := 1, anio := 2024, quien_pago := "Ricardo",
                monto_pagado := 10, semana := some 1 },
              { gasto_id := 1, mes := 1, anio := 2024, quien_pago := "Ricardo",
                monto_pagado := 10, semana := some 1 },
              { gasto_id := 1, mes := 1, anio := 2024, quien_pago := "Ricardo",
                monto_pagado := 10, semana := some 1 },
              { gasto_id := 1, mes := 1, anio := 2024, quien_pago := "Ricardo",
                monto_pagado := 10, semana := some 1 },
              { gasto_id := 1, mes := 1, anio := 2024, quien_pago := "Ricardo",
                monto_pagado := 10, semana := some 1 }] }

/-- `gastoC5` with Ricardo having paid weeks 1–5 of January 2024. -/
def dbC5completo : DB :=
  { gastos := [gastoC5],
    pagos := [{ gasto_id := 1, mes := 1, anio := 2024, quien_pago := "Ricardo",
                monto_pagado := 10, semana := some 1 },
              { gasto_id := 1, mes := 1, anio := 2024, quien_pago := "Ricardo",
                monto_pagado := 10, semana := some 2 },
              { gasto_id := 1, mes := 1, anio := 2024, quien_pago := "Ricardo",
                monto_pagado := 10, semana := some 3 },
              { gasto_id := 1, mes := 1, anio := 2024, quien_pago := "Ricardo",
                monto_pagado := 10, semana := some 4 },
              { gasto_id := 1, mes := 1, anio := 2024, quien_pago := "Ricardo",
                monto_pagado := 10, semana := some 5 }] }

/-- `gastoC5` with Ricardo having paid only weeks 1–4 of January 2024. -/
def dbC5cuatro : DB :=
  { gastos := [gastoC5],
    pagos := [{ gasto_id := 1, mes := 1, anio := 2024, quien_pago := "Ricardo",
                monto_pagado := 10, semana := some 1 },
              { gasto_id := 1, mes := 1, anio := 2024, quien_pago := "Ricardo",
                monto_pagado := 10, semana := some 2 },
              { gasto_id := 1, mes := 1, anio := 2024, quien_pago := "Ricardo",
                monto_pagado := 10, semana := some 3 },
              { gasto_id := 1, mes := 1, anio := 2024, quien_pago := "Ricardo",
                monto_pagado := 10, semana := some 4 }] }

/-- A lone expense with default split, member of no group. -/
def gastoSolo : Gasto :=
  { id := 1, concepto := "Internet", monto_total := 50, frecuencia := "Mensual" }

/-- A database with one expense and no membership rows at all. -/
def dbSinMembresias : DB := { gastos := [gastoSolo] }

/-! ## Helper lemmas -/

lemma contar_semanas_aux_eq (fuel fecha ultimo : Nat) (h : ultimo < fecha + 7 * fuel) :
    contar_semanas_aux fuel fecha ultimo =
      if fecha ≤ ultimo then (ultimo - fecha) / 7 + 1 else 0 := by
  induction fuel generalizing fecha with
  | zero =>
    have hn : ¬ fecha ≤ ultimo := by omega
    simp [contar_semanas_aux, hn]
  | succ n ih =>
    by_cases hle : fecha ≤ ultimo
    · rw [contar_semanas_aux, if_pos hle, if_pos hle, ih (fecha + 7) (by omega)]
      by_cases h2 : fecha + 7 ≤ ultimo
      · rw [if_pos h2]; omega
      · rw [if_neg h2]; omega
    · rw [contar_semanas_aux, if_neg hle, if_neg hle]

/-- Closed form of the week-counting loop. -/
lemma contar_semanas_eq (fecha ultimo : Nat) :
    contar_semanas fecha ultimo =
      if fecha ≤ ultimo then (ultimo - fecha) / 7 + 1 else 0 :=
  contar_semanas_aux_eq _ _ _ (by omega)

lemma diasDelMes_bounds (mes anio : Nat) (h1 : 1 ≤ mes) (h2 : mes ≤ 12) :
    28 ≤ diasDelMes mes anio ∧ diasDelMes mes anio ≤ 31 := by
  interval_cases mes <;> simp only [diasDelMes] <;>
    first
      | omega
      | (split <;> omega)

lemma diaSemana_lt (anio mes dia : Nat) : diaSemana anio mes dia < 7 :=
  Nat.mod_lt _ (by norm_num)

lemma marcarDistribucion_mem (l : List Gasto) (gid : Nat) (t : String) :
    ∀ g ∈ marcarDistribucion l gid t, g.id = gid → g.tipo_distribucion = t := by
  intro g hg hid
  simp only [marcarDistribucion, List.mem_map] at hg
  obtain ⟨x, hx, hxe⟩ := hg
  by_cases hxid : x.id = gid
  · rw [if_pos hxid] at hxe
    rw [← hxe]
  · rw [if_neg hxid] at hxe
    rw [← hxe] at hid
    exact absurd hid hxid

lemma foldl_marcar_preserva (ids : List Nat) (l : List Gasto) (a : Nat) (t : String)
    (hbase : ∀ x ∈ l, x.id = a → x.tipo_distribucion = t) :
    ∀ g ∈ ids.foldl (fun acc gid => marcarDistribucion acc gid t) l,
      g.id = a → g.tipo_distribucion = t := by
  induction ids generalizing l with
  | nil => simpa using hbase
  | cons b rest ih =>
    intro g hg hid
    refine ih (marcarDistribucion l b t) ?_ g (by simpa using hg) hid
    intro x hx hxa
    simp only [marcarDistribucion, List.mem_map] at hx
    obtain ⟨y, hy, hye⟩ := hx
    by_cases hyb : y.id = b
    · rw [if_pos hyb] at hye
      rw [← hye]
    · rw [if_neg hyb] at hye
      rw [← hye]
      exact hbase y hy (hye ▸ hxa)

lemma foldl_marcar (ids : List Nat) (l : List Gasto) (t : String) :
    ∀ g ∈ ids.foldl (fun acc gid => marcarDistribucion acc gid t) l,
      g.id ∈ ids → g.tipo_distribucion = t := by
  induction ids generalizing l with
  | nil => intro g _ hid; simp at hid
  | cons a rest ih =>
    intro g hg hid
    rcases List.mem_cons.mp hid with hia | hirest
    · exact foldl_marcar_preserva rest (marcarDistribucion l a t) a t
        (marcarDistribucion_mem l a t) g (by simpa using hg) hia
    · exact ih (marcarDistribucion l a t) g (by simpa using hg) hirest

lemma foldl_crear_gastos (ids : List Nat) (g0 : Nat) : ∀ d : DB,
    (ids.foldl (fun d gid =>
      { d with gastos_en_grupo := d.gastos_en_grupo ++ [⟨g0, gid⟩],
               gastos := marcarDistribucion d.gastos gid "agrupado" }) d).gastos =
    ids.foldl (fun acc gid => marcarDistribucion acc gid "agrupado") d.gastos := by
  induction ids with
  | nil => intro d; rfl
  | cons b rest ih =>
    intro d
    simp only [List.foldl_cons]
    exact ih _

lemma grupoInfoDe_gastos (db : DB) (gr : Grupo) :
    (grupoInfoDe db gr).gastos =
      (miembrosActivos db gr.id).map (fun g => (g.id, g.concepto, g.monto_total)) := by
  simp only [grupoInfoDe, miembrosActivos, List.map_filterMap]

lemma grupoInfoDe_quien (db : DB) (gr : Grupo) :
    (grupoInfoDe db gr).quien_paga_fijo = gr.quien_paga_fijo := rfl

lemma grupoInfoDe_fijoR (db : DB) (gr : Grupo) :
    (grupoInfoDe db gr).monto_fijo_ricardo = gr.monto_fijo_ricardo := rfl

lemma grupoInfoDe_fijoW (db : DB) (gr : Grupo) :
    (grupoInfoDe db gr).monto_fijo_wendy = gr.monto_fijo_wendy := rfl

lemma miembrosActivos_spec (db : DB) (grupo_id : Nat) :
    ∀ g ∈ miembrosActivos db grupo_id, g ∈ db.gastos ∧ g.activo = true := by
  intro g hg
  simp only [miembrosActivos, List.mem_filterMap] at hg
  obtain ⟨ge, -, hfind⟩ := hg
  refine ⟨List.mem_of_find?_eq_some hfind, ?_⟩
  have hp := List.find?_some hfind
  simp only [Bool.and_eq_true, beq_iff_eq] at hp
  exact hp.2

lemma find?_map_pred {α β : Type} (f : α → β) (p : β → Bool) (q : α → Bool)
    (hpq : ∀ a, p (f a) = q a) :
    ∀ l : List α, (l.map f).find? p = (l.find? q).map f := by
  intro l
  induction l with
  | nil => rfl
  | cons a t ih =>
    by_cases hqa : q a = true
    · rw [List.map_cons, List.find?_cons_of_pos _ (by rw [hpq]; exact hqa),
        List.find?_cons_of_pos _ hqa]
      rfl
    · rw [List.map_cons, List.find?_cons_of_neg _ (by rw [hpq]; exact hqa),
        List.find?_cons_of_neg _ hqa, ih]

lemma find?_gasto_activo (l : List Gasto) (g : Gasto)
    (hnodup : (l.map (·.id)).Nodup) (hg : g ∈ l) (hact : g.activo = true) :
    (l.filter (·.activo)).find? (fun x => x.id == g.id) = some g := by
  induction l with
  | nil => cases hg
  | cons a t ih =>
    simp only [List.map_cons, List.nodup_cons] at hnodup
    obtain ⟨hna, hnt⟩ := hnodup
    rcases List.mem_cons.mp hg with rfl | hgt
    · rw [List.filter_cons_of_pos hact, List.find?_cons_of_pos _ (by simp)]
    · by_cases haact : a.activo = true
      · rw [List.filter_cons_of_pos haact, List.find?_cons_of_neg _ ?_]
        · exact ih hnt hgt
        · simp only [beq_iff_eq]
          intro h
          exact hna (h ▸ List.mem_map_of_mem (fun x => x.id) hgt)
      · rw [List.filter_cons_of_neg (by simpa using haact)]
        exact ih hnt hgt

lemma find?_confRow (db : DB) (mes anio : Nat) (g : Gasto)
    (hnodup : (db.gastos.map (·.id)).Nodup) (hg : g ∈ db.gastos)
    (hact : g.activo = true) :
    (obtener_montos_configurados db mes anio).find? (fun c => c.id == g.id) =
      some (confRow db mes anio g) := by
  unfold obtener_montos_configurados
  rw [find?_map_pred (confRow db mes anio) (fun c => c.id == g.id)
    (fun x => x.id == g.id) (fun a => by simp [confRow]),
    find?_gasto_activo db.gastos g hnodup hg hact]
  rfl

lemma foldl_pasoGrupo (db : DB) (gastos_df : List GastoConf) (mes anio : Nat)
    (L : List Gasto)
    (hfind : ∀ g ∈ L, gastos_df.find? (fun c => c.id == g.id) =
      some (confRow db mes anio g)) :
    ∀ acc : ℚ × List String × List Nat,
      (L.map (fun g => (g.id, g.concepto, g.monto_total))).foldl
          (pasoGrupo db gastos_df mes anio) acc =
        (acc.1 + (L.map (fun g => calcular_monto_mensual_segun_frecuencia
            (obtener_monto_del_mes db g.id mes anio) g.frecuencia mes anio)).sum,
         acc.2.1 ++ L.map (fun g => g.concepto),
         acc.2.2 ++ L.map (fun g => g.id)) := by
  induction L with
  | nil => intro acc; simp
  | cons a t ih =>
    intro acc
    simp only [List.map_cons, List.foldl_cons, List.sum_cons]
    have hstep : pasoGrupo db gastos_df mes anio acc (a.id, a.concepto, a.monto_total) =
        (acc.1 + calcular_monto_mensual_segun_frecuencia
            (obtener_monto_del_mes db a.id mes anio) a.frecuencia mes anio,
         acc.2.1 ++ [a.concepto], acc.2.2 ++ [a.id]) := by
      have hfr : (confRow db mes anio a).frecuencia = a.frecuencia := by
        simp [confRow]
      simp only [pasoGrupo, hfind a (List.mem_cons_self a t), hfr]
    rw [hstep, ih (fun g hgt => hfind g (List.mem_cons_of_mem a hgt))]
    simp [Prod.ext_iff, add_assoc]

lemma length_filterMap_isSome {α β : Type} (f : α → Option β) (l : List α)
    (h : ∀ a ∈ l, (f a).isSome) : (l.filterMap f).length = l.length := by
  induction l with
  | nil => rfl
  | cons a t ih =>
    obtain ⟨x, hx⟩ := Option.isSome_iff_exists.mp (h a (List.mem_cons_self a t))
    rw [List.filterMap_cons, hx]
    simp [ih (fun b hb => h b (List.mem_cons_of_mem a hb))]

/-! ## Theorems for the claims -/

/-- **C7.** For every month 1..12 (and any year), `calcular_semanas_del_mes`
returns 4 or 5; in particular 4 for February 2024 and 5 for January 2024. -/
theorem semanas_del_mes_cuatro_o_cinco (mes anio : Nat)
    (h1 : 1 ≤ mes) (h2 : mes ≤ 12) :
    (calcular_semanas_del_mes mes anio = 4 ∨ calcular_semanas_del_mes mes anio = 5) ∧
    calcular_semanas_del_mes 2 2024 = 4 ∧
    calcular_semanas_del_mes 1 2024 = 5 := by
  refine ⟨?_, by decide, by decide⟩
  obtain ⟨hd1, hd2⟩ := diasDelMes_bounds mes anio h1 h2
  have hw : diaSemana anio mes 1 < 7 := diaSemana_lt anio mes 1
  simp only [calcular_semanas_del_mes]
  set u := diasDelMes mes anio with hu
  set w := diaSemana anio mes 1 with hwdef
  split_ifs with h0 hgt h7 hgt hgt <;>
    first
      | (exfalso; omega)
      | (rw [contar_semanas_eq]; split_ifs with hin <;> omega)

/-- Witness for C7 at month 6, year 2025. -/
theorem semanas_del_mes_cuatro_o_cinco_witness :
    (1 ≤ 6 ∧ 6 ≤ 12) ∧
    ((calcular_semanas_del_mes 6 2025 = 4 ∨ calcular_semanas_del_mes 6 2025 = 5) ∧
     calcular_semanas_del_mes 2 2024 = 4 ∧
     calcular_semanas_del_mes 1 2024 = 5) :=
  ⟨⟨by norm_num, by norm_num⟩,
   semanas_del_mes_cuatro_o_cinco 6 2025 (by norm_num) (by norm_num)⟩

/-- **C6.** `calcular_monto_mensual_segun_frecuencia` returns exactly the base
for `Mensual`, base × 2 for `Quincenal`, base ÷ 12 for `Anual`, base × number
of weeks for `Semanal`, and is nonnegative for every frequency string when
the base is nonnegative. -/
theorem frecuencia_resolucion (b : ℚ) (mes anio : Nat) (hb : 0 ≤ b) :
    calcular_monto_mensual_segun_frecuencia b "Mensual" mes anio = b ∧
    calcular_monto_mensual_segun_frecuencia b "Quincenal" mes anio = b * 2 ∧
    calcular_monto_mensual_segun_frecuencia b "Anual" mes anio = b / 12 ∧
    calcular_monto_mensual_segun_frecuencia b "Semanal" mes anio =
      b * (calcular_semanas_del_mes mes anio : ℚ) ∧
    ∀ frecuencia : String,
      0 ≤ calcular_monto_mensual_segun_frecuencia b frecuencia mes anio := by
  refine ⟨by simp [calcular_monto_mensual_segun_frecuencia],
          by simp [calcular_monto_mensual_segun_frecuencia],
          by simp [calcular_monto_mensual_segun_frecuencia],
          by simp [calcular_monto_mensual_segun_frecuencia], ?_⟩
  intro f
  unfold calcular_monto_mensual_segun_frecuencia
  split_ifs
  · exact mul_nonneg hb (by positivity)
  · exact mul_nonneg hb (by norm_num)
  · exact div_nonneg hb (by norm_num)
  · exact hb

/-- Witness for C6 at base 10, January 2024. -/
theorem frecuencia_resolucion_witness :
    (0:ℚ) ≤ 10 ∧
    (calcular_monto_mensual_segun_frecuencia 10 "Mensual" 1 2024 = 10 ∧
     calcular_monto_mensual_segun_frecuencia 10 "Quincenal" 1 2024 = 10 * 2 ∧
     calcular_monto_mensual_segun_frecuencia 10 "Anual" 1 2024 = 10 / 12 ∧
     calcular_monto_mensual_segun_frecuencia 10 "Semanal" 1 2024 =
       10 * (calcular_semanas_del_mes 1 2024 : ℚ) ∧
     ∀ frecuencia : String,
       0 ≤ calcular_monto_mensual_segun_frecuencia 10 frecuencia 1 2024) :=
  ⟨by norm_num, frecuencia_resolucion 10 1 2024 (by norm_num)⟩

/-- **C1 (counterexample).** For the FixedA kind with configured fixed amount
100 and monthly total 80, the two shares are (100, 0): they sum to 100,
missing the total by 20 — far beyond the 1e-9 tolerance — so the
unrestricted sum invariant of the claim is false. -/
theorem distribucion_suma_contraejemplo :
    (calcular_distribucion_pago gastoFijoExcedido 80).1 +
      (calcular_distribucion_pago gastoFijoExcedido 80).2 = 100 ∧
    ¬ |(calcular_distribucion_pago gastoFijoExcedido 80).1 +
        (calcular_distribucion_pago gastoFijoExcedido 80).2 - 80| ≤ 1 / 1000000000 := by
  constructor <;>
    simp [calcular_distribucion_pago, gastoFijoExcedido, pyOrZero] <;> norm_num

/-- **C1 (amended).** The shares returned by `calcular_distribucion_pago` sum
exactly to the monthly total and are both nonnegative, provided the
configured fixed amount lies between 0 and the total (for the FixedA/FixedB
kinds) and the resolved percentage lies in [0, 100] (for the Percentage
kind); the Equal kind needs no extra hypothesis. -/
theorem distribucion_reparto_valido (gasto : GastoConf) (total : ℚ)
    (ht : 0 ≤ total)
    (hfr : gasto.tipo_distribucion = "fijo_ricardo" →
      0 ≤ pyOrZero gasto.monto_fijo_ricardo ∧
      pyOrZero gasto.monto_fijo_ricardo ≤ total)
    (hfw : gasto.tipo_distribucion = "fijo_wendy" →
      0 ≤ pyOrZero gasto.monto_fijo_wendy ∧
      pyOrZero gasto.monto_fijo_wendy ≤ total)
    (hp : gasto.tipo_distribucion = "personalizado" →
      0 ≤ pyOr50 gasto.porcentaje_ricardo ∧
      pyOr50 gasto.porcentaje_ricardo ≤ 100) :
    (calcular_distribucion_pago gasto total).1 +
      (calcular_distribucion_pago gasto total).2 = total ∧
    0 ≤ (calcular_distribucion_pago gasto total).1 ∧
    0 ≤ (calcular_distribucion_pago gasto total).2 := by
  unfold calcular_distribucion_pago
  dsimp only
  split_ifs with h1 h2 h3
  · obtain ⟨ha, hb⟩ := hfr h1
    have hmax : max 0 (total - pyOrZero gasto.monto_fijo_ricardo) =
        total - pyOrZero gasto.monto_fijo_ricardo := max_eq_right (by linarith)
    exact ⟨by simp only [hmax]; ring, ha, le_max_left 0 _⟩
  · obtain ⟨ha, hb⟩ := hfw h2
    have hmax : max 0 (total - pyOrZero gasto.monto_fijo_wendy) =
        total - pyOrZero gasto.monto_fijo_wendy := max_eq_right (by linarith)
    exact ⟨by simp only [hmax]; ring, le_max_left 0 _, ha⟩
  · obtain ⟨ha, hb⟩ := hp h3
    refine ⟨by ring, mul_nonneg ht (by linarith), ?_⟩
    have hfac : 0 ≤ 1 - pyOr50 gasto.porcentaje_ricardo / 100 := by linarith
    nlinarith [mul_nonneg ht hfac]
  · exact ⟨by ring, by linarith, by linarith⟩

/-- Witness for the amended C1: FixedA with fixed 70 and total 100 gives
shares summing to 100, both nonnegative. -/
theorem distribucion_reparto_valido_witness :
    ((0:ℚ) ≤ 100) ∧
    ((calcular_distribucion_pago gastoFijoParcial 100).1 +
       (calcular_distribucion_pago gastoFijoParcial 100).2 = 100 ∧
     0 ≤ (calcular_distribucion_pago gastoFijoParcial 100).1 ∧
     0 ≤ (calcular_distribucion_pago gastoFijoParcial 100).2) :=
  ⟨by norm_num,
   distribucion_reparto_valido gastoFijoParcial 100 (by norm_num)
     (fun _ => ⟨by norm_num [gastoFijoParcial, pyOrZero],
                by norm_num [gastoFijoParcial, pyOrZero]⟩)
     (fun h => absurd h (by simp [gastoFijoParcial]))
     (fun h => absurd h (by simp [gastoFijoParcial]))⟩

/-- **C9.** `obtener_monto_del_mes` is total: when no override row matches
`(gasto_id, mes, anio)` and no expense row has this id, it returns `0.0`
rather than signalling an error. -/
theorem monto_del_mes_total (db : DB) (gasto_id mes anio : Nat)
    (hov : ∀ m ∈ db.montos_mensuales,
      ¬(m.gasto_id = gasto_id ∧ m.mes = mes ∧ m.anio = anio))
    (hg : ∀ g ∈ db.gastos, g.id ≠ gasto_id) :
    obtener_monto_del_mes db gasto_id mes anio = 0 := by
  have h1 : db.montos_mensuales.find?
      (fun m => m.gasto_id == gasto_id && m.mes == mes && m.anio == anio) = none := by
    rw [List.find?_eq_none]
    intro m hm
    have hnm := hov m hm
    simp only [Bool.and_eq_true, beq_iff_eq, not_and]
    tauto
  have h2 : db.gastos.find? (fun g => g.id == gasto_id) = none := by
    rw [List.find?_eq_none]
    intro g hgm
    simpa using hg g hgm
  unfold obtener_monto_del_mes
  rw [h1, h2]

/-- Witness for C9: the empty database. -/
theorem monto_del_mes_total_witness :
    ((∀ m ∈ ({} : DB).montos_mensuales, ¬(m.gasto_id = 7 ∧ m.mes = 1 ∧ m.anio = 2024)) ∧
     (∀ g ∈ ({} : DB).gastos, g.id ≠ 7)) ∧
    obtener_monto_del_mes {} 7 1 2024 = 0 :=
  ⟨⟨by simp, by simp⟩, monto_del_mes_total {} 7 1 2024 (by simp) (by simp)⟩

/-- **C10.** `remover_gasto_de_grupo` sets the expense's distribution kind to
`"50/50"` unconditionally (its hypothesis does not require any membership
row), and its Bool result reports whether an expense row with this id exists
— not whether a membership row was removed. -/
theorem remover_gasto_reporte (db : DB) (grupo_id gasto_id : Nat) :
    (∀ g ∈ (remover_gasto_de_grupo db grupo_id gasto_id).1.gastos,
       g.id = gasto_id → g.tipo_distribucion = "50/50") ∧
    ((remover_gasto_de_grupo db grupo_id gasto_id).2 = true ↔
       ∃ g ∈ db.gastos, g.id = gasto_id) := by
  constructor
  · exact marcarDistribucion_mem db.gastos gasto_id "50/50"
  · simp [remover_gasto_de_grupo, List.any_eq_true]

/-- Witness for C10 on a database with one expense and no membership rows:
the result is still reported `true` and the kind is still reset. -/
theorem remover_gasto_reporte_witness :
    ((∀ g ∈ (remover_gasto_de_grupo dbSinMembresias 5 1).1.gastos,
        g.id = 1 → g.tipo_distribucion = "50/50") ∧
     ((remover_gasto_de_grupo dbSinMembresias 5 1).2 = true ↔
        ∃ g ∈ dbSinMembresias.gastos, g.id = 1)) ∧
    dbSinMembresias.gastos_en_grupo = [] ∧
    (remover_gasto_de_grupo dbSinMembresias 5 1).2 = true :=
  ⟨remover_gasto_reporte dbSinMembresias 5 1, rfl,
   by simp [remover_gasto_de_grupo, dbSinMembresias, gastoSolo]⟩

/-- **C8.** Group-membership invariant on the distribution kind: linking an
expense at group creation, or adding it later, forces its kind to
`"agrupado"`; removing it from a group, or deleting the group, resets the
kind of the affected expenses to `"50/50"`. -/
theorem grupo_membresia_invariante (db : DB) (grupo_id gasto_id : Nat)
    (nombre descripcion quien_paga : String) (monto_fijo : ℚ)
    (gastos_ids : List Nat) :
    (∀ db1 gid, crear_grupo_distribucion db nombre descripcion quien_paga
        monto_fijo gastos_ids = (db1, some gid) →
      ∀ g ∈ db1.gastos, g.id ∈ gastos_ids → g.tipo_distribucion = "agrupado") ∧
    (∀ db1, agregar_gasto_a_grupo db grupo_id gasto_id = (db1, true) →
      ∀ g ∈ db1.gastos, g.id = gasto_id → g.tipo_distribucion = "agrupado") ∧
    (∀ g ∈ (remover_gasto_de_grupo db grupo_id gasto_id).1.gastos,
      g.id = gasto_id → g.tipo_distribucion = "50/50") ∧
    (∀ g ∈ (eliminar_grupo_distribucion db grupo_id).1.gastos,
      g.id ∈ (db.gastos_en_grupo.filter
        (fun ge => ge.grupo_id == grupo_id)).map (fun ge => ge.gasto_id) →
      g.tipo_distribucion = "50/50") := by
  refine ⟨?_, ?_, marcarDistribucion_mem db.gastos gasto_id "50/50", ?_⟩
  · intro db1 gid h
    by_cases hnd : gastos_ids.Nodup
    · have hdb1 : db1 = (crear_grupo_distribucion db nombre descripcion quien_paga
          monto_fijo gastos_ids).1 := by rw [h]
      rw [hdb1]
      simp only [crear_grupo_distribucion, if_pos hnd]
      rw [foldl_crear_gastos]
      exact foldl_marcar gastos_ids _ "agrupado"
    · rw [crear_grupo_distribucion, if_neg hnd] at h
      simp at h
  · intro db1 h
    rw [agregar_gasto_a_grupo] at h
    split_ifs at h with hdup
    · simp at h
    · obtain ⟨hdb1, -⟩ := Prod.mk.injEq .. ▸ h
      rw [← hdb1]
      exact marcarDistribucion_mem db.gastos gasto_id "agrupado"
  · intro g hg hid
    simp only [eliminar_grupo_distribucion, List.mem_map] at hg
    simp only [List.mem_map] at hid
    obtain ⟨x, hx, hxe⟩ := hg
    split_ifs at hxe with hxm
    · rw [← hxe]
    · rw [← hxe] at hid
      exact absurd hid hxm

/-- Witness for C8 on a one-expense database. -/
theorem grupo_membresia_invariante_witness :
    (∀ db1 gid, crear_grupo_distribucion dbSinMembresias "Casa" "" "Ricardo"
        70 [1] = (db1, some gid) →
      ∀ g ∈ db1.gastos, g.id ∈ [1] → g.tipo_distribucion = "agrupado") ∧
    (∀ db1, agregar_gasto_a_grupo dbSinMembresias 3 1 = (db1, true) →
      ∀ g ∈ db1.gastos, g.id = 1 → g.tipo_distribucion = "agrupado") ∧
    (∀ g ∈ (remover_gasto_de_grupo dbSinMembresias 3 1).1.gastos,
      g.id = 1 → g.tipo_distribucion = "50/50") ∧
    (∀ g ∈ (eliminar_grupo_distribucion dbSinMembresias 3).1.gastos,
      g.id ∈ (dbSinMembresias.gastos_en_grupo.filter
        (fun ge => ge.grupo_id == 3)).map (fun ge => ge.gasto_id) →
      g.tipo_distribucion = "50/50") :=
  grupo_membresia_invariante dbSinMembresias 3 1 "Casa" "" "Ricardo" 70 [1]

/-- **C2 (counterexample).** On a database with one active FixedA expense
(total 100, Ricardo fixed 70), the statement table assigns Ricardo 70, but
`calcular_saldo_neto` reports each person's owed total as 50 — half of the
raw resolved total, ignoring the distribution rule — so "total owed per
person = sum of that person's share across all statement rows" is false. -/
theorem saldo_neto_contraejemplo :
    ((calcular_tabla_mensual dbC2 3 2025).map (·.debe_ricardo)).sum = 70 ∧
    (calcular_saldo_neto dbC2 3 2025).total_debe_cada_uno = 50 ∧
    (50 : ℚ) ≠ 70 := by
  refine ⟨?_, ?_, by norm_num⟩
  · simp [calcular_tabla_mensual, dbC2, gastoC2, obtener_montos_configurados,
      confRow, obtener_grupos_distribucion, procesarGastoIndividual,
      calcular_monto_mensual_segun_frecuencia, calcular_distribucion_pago,
      verificar_pago_existente, pyOrZero]
  · simp [calcular_saldo_neto, dbC2, gastoC2, obtener_montos_configurados, confRow]
    norm_num

/-- **C2 (amended).** `calcular_saldo_neto` computes each person's owed total
as HALF of the sum of the resolved monthly amounts of all active expenses
(the same figure for both persons, with no frequency conversion and no
per-expense distribution rule); each person's paid total is the global sum
of all that person's payment records for the month, not filtered by expense
(`dbSobrepago`: a payment against a nonexistent expense id still counts);
and the pending figure is owed − paid, not clamped (it reaches −15 there). -/
theorem saldo_neto_formula (db : DB) (mes anio : Nat) :
    (calcular_saldo_neto db mes anio).total_debe_cada_uno =
      ((db.gastos.filter (·.activo)).map
        (fun g => (confRow db mes anio g).monto_total)).sum / 2 ∧
    (calcular_saldo_neto db mes anio).pagado_ricardo =
      ((db.pagos.filter (fun p =>
        p.mes == mes && p.anio == anio && p.quien_pago == "Ricardo")).map
          (fun p => p.monto_pagado)).sum ∧
    (calcular_saldo_neto db mes anio).pagado_wendy =
      ((db.pagos.filter (fun p =>
        p.mes == mes && p.anio == anio && p.quien_pago == "Wendy")).map
          (fun p => p.monto_pagado)).sum ∧
    (calcular_saldo_neto db mes anio).saldo_ricardo =
      (calcular_saldo_neto db mes anio).total_debe_cada_uno -
        (calcular_saldo_neto db mes anio).pagado_ricardo ∧
    (calcular_saldo_neto db mes anio).saldo_wendy =
      (calcular_saldo_neto db mes anio).total_debe_cada_uno -
        (calcular_saldo_neto db mes anio).pagado_wendy ∧
    (calcular_saldo_neto dbSobrepago 1 2024).saldo_ricardo = -15 ∧
    dbSobrepago.gastos.all (fun g => g.id != 99) = true := by
  refine ⟨?_, rfl, rfl, rfl, rfl, ?_, by decide⟩
  · dsimp only [calcular_saldo_neto]
    split_ifs with h
    · rw [List.isEmpty_iff] at h
      have hf : db.gastos.filter (·.activo) = [] := by
        have h2 := congrArg List.length h
        simp only [obtener_montos_configurados, List.length_map,
          List.length_nil] at h2
        exact List.length_eq_zero.mp h2
      rw [hf]
      simp
    · simp only [obtener_montos_configurados, List.map_map]
      rfl
  · simp [calcular_saldo_neto, dbSobrepago, obtener_montos_configurados, confRow]
    norm_num

/-- **C3 (counterexample).** `gastoC3` has amount-kind `"fijo"` and base
amount 100, yet with an override row of 150 present the group row built by
`calcular_tabla_mensual` totals 150: group-member aggregation resolves
amounts through `obtener_monto_del_mes`, which applies overrides regardless
of the amount-kind. -/
theorem monto_fijo_grupo_contraejemplo :
    gastoC3.tipo_monto = "fijo" ∧
    gastoC3.monto_total = 100 ∧
    (calcular_tabla_mensual dbC3 3 2025).map (·.monto_total) = [150] := by
  refine ⟨rfl, rfl, ?_⟩
  simp [calcular_tabla_mensual, dbC3, gastoC3, obtener_montos_configurados,
    confRow, obtener_grupos_distribucion, grupoInfoDe, procesarGrupo, pasoGrupo,
    obtener_monto_del_mes, calcular_monto_mensual_segun_frecuencia, pyOrZero,
    verificar_pago_existente]

/-- **C3 (amended).** Fixed-kind expenses resolve to their base amount in
`obtener_montos_configurados` (hence in individual statement rows), but
`obtener_monto_del_mes` — the resolver used for group-member aggregation —
returns the override row's amount whenever one matches, regardless of the
expense's amount-kind. -/
theorem monto_fijo_resolucion (db : DB) (mes anio : Nat) :
    (∀ c ∈ obtener_montos_configurados db mes anio, c.tipo_monto = "fijo" →
      ∃ g ∈ db.gastos, g.activo = true ∧ g.id = c.id ∧
        c.monto_total = g.monto_total) ∧
    (∀ gasto_id m0, db.montos_mensuales.find? (fun m =>
        m.gasto_id == gasto_id && m.mes == mes && m.anio == anio) = some m0 →
      obtener_monto_del_mes db gasto_id mes anio = m0.monto_total) := by
  constructor
  · intro c hc hfijo
    simp only [obtener_montos_configurados, List.mem_map, List.mem_filter] at hc
    obtain ⟨g, ⟨hg, hact⟩, hce⟩ := hc
    refine ⟨g, hg, hact, ?_, ?_⟩
    · rw [← hce]
      simp [confRow]
    · rw [← hce]
      have hvar : ¬ g.tipo_monto = "variable" := by
        have hmt : c.tipo_monto = g.tipo_monto := by
          rw [← hce]
          simp [confRow]
        rw [hfijo] at hmt
        intro hv
        rw [hv] at hmt
        simp at hmt
      simp only [confRow, if_neg hvar]
  · intro gasto_id m0 hm
    unfold obtener_monto_del_mes
    rw [hm]

/-- Witness for the amended C3 on `dbC3` (which holds a fixed-kind row and a
matching override). -/
theorem monto_fijo_resolucion_witness :
    (∀ c ∈ obtener_montos_configurados dbC3 3 2025, c.tipo_monto = "fijo" →
      ∃ g ∈ dbC3.gastos, g.activo = true ∧ g.id = c.id ∧
        c.monto_total = g.monto_total) ∧
    (∀ gasto_id m0, dbC3.montos_mensuales.find? (fun m =>
        m.gasto_id == gasto_id && m.mes == 3 && m.anio == 2025) = some m0 →
      obtener_monto_del_mes dbC3 gasto_id 3 2025 = m0.monto_total) :=
  monto_fijo_resolucion dbC3 3 2025

/-- **C4.** For every active group with at least one active member expense,
the statement table contains the group's row; its monthly total is the sum
over the member expenses of the frequency-resolved `obtener_monto_del_mes`
amount; the split gives the payer of the fixed amount exactly that amount
and the other person `max 0 (total − fixed)`; and the per-person paid flag
is `"✅"` iff every member expense has at least one payment record by that
person in that month.  Concretely (member totals 40 and 60, Ricardo fixed
70): total 100, Ricardo owes 70, Wendy owes 30; Ricardo's flag is `"✅"`
only once both member expenses are paid. -/
theorem fila_grupo_correcta (db : DB) (mes anio : Nat) (gr : Grupo)
    (hnodup : (db.gastos.map (fun g => g.id)).Nodup)
    (hgr : gr ∈ db.grupos) (hact : gr.activo = true)
    (hmem : miembrosActivos db gr.id ≠ []) :
    (∃ fila ∈ calcular_tabla_mensual db mes anio,
      fila.id = FilaId.grupo gr.id ∧
      fila.monto_total = ((miembrosActivos db gr.id).map
        (fun g => calcular_monto_mensual_segun_frecuencia
          (obtener_monto_del_mes db g.id mes anio) g.frecuencia mes anio)).sum ∧
      (gr.quien_paga_fijo = "Ricardo" →
        fila.debe_ricardo = pyOrZero gr.monto_fijo_ricardo ∧
        fila.debe_wendy =
          max 0 (fila.monto_total - pyOrZero gr.monto_fijo_ricardo)) ∧
      (gr.quien_paga_fijo = "Wendy" →
        fila.debe_wendy = pyOrZero gr.monto_fijo_wendy ∧
        fila.debe_ricardo =
          max 0 (fila.monto_total - pyOrZero gr.monto_fijo_wendy)) ∧
      (fila.ricardo_pago = "✅" ↔ ∀ g ∈ miembrosActivos db gr.id,
        ∃ p ∈ db.pagos, p.gasto_id = g.id ∧ p.mes = mes ∧ p.anio = anio ∧
          p.quien_pago = "Ricardo") ∧
      (fila.wendy_pago = "✅" ↔ ∀ g ∈ miembrosActivos db gr.id,
        ∃ p ∈ db.pagos, p.gasto_id = g.id ∧ p.mes = mes ∧ p.anio = anio ∧
          p.quien_pago = "Wendy")) ∧
    (calcular_tabla_mensual dbC4 1 2024).map
      (fun f => (f.monto_total, f.debe_ricardo, f.debe_wendy, f.ricardo_pago)) =
      [(100, 70, 30, "❌")] ∧
    (calcular_tabla_mensual dbC4unPago 1 2024).map (fun f => f.ricardo_pago) =
      ["❌"] ∧
    (calcular_tabla_mensual dbC4dosPagos 1 2024).map (fun f => f.ricardo_pago) =
      ["✅"] := by
  refine ⟨?_, ?_, ?_, ?_⟩
  · obtain ⟨g0, hg0⟩ := List.exists_mem_of_ne_nil _ hmem
    obtain ⟨hg0db, hg0act⟩ := miembrosActivos_spec db gr.id g0 hg0
    have hfind : ∀ g ∈ miembrosActivos db gr.id,
        (obtener_montos_configurados db mes anio).find? (fun c => c.id == g.id) =
          some (confRow db mes anio g) := fun g hgm =>
      find?_confRow db mes anio g hnodup (miembrosActivos_spec db gr.id g hgm).1
        (miembrosActivos_spec db gr.id g hgm).2
    have hgi : grupoInfoDe db gr ∈ (obtener_grupos_distribucion db).filter
        (fun gi => !gi.gastos.isEmpty) := by
      refine List.mem_filter.mpr ⟨?_, ?_⟩
      · exact List.mem_map_of_mem _ (List.mem_filter.mpr ⟨hgr, hact⟩)
      · rw [grupoInfoDe_gastos]
        simpa [List.isEmpty_iff] using hmem
    have hpaso : (grupoInfoDe db gr).gastos.foldl
        (pasoGrupo db (obtener_montos_configurados db mes anio) mes anio)
        (0, [], []) =
        (((miembrosActivos db gr.id).map
            (fun g => calcular_monto_mensual_segun_frecuencia
              (obtener_monto_del_mes db g.id mes anio) g.frecuencia mes anio)).sum,
         (miembrosActivos db gr.id).map (fun g => g.concepto),
         (miembrosActivos db gr.id).map (fun g => g.id)) := by
      rw [grupoInfoDe_gastos,
        foldl_pasoGrupo db (obtener_montos_configurados db mes anio) mes anio _ hfind]
      simp
    refine ⟨(procesarGrupo db (obtener_montos_configurados db mes anio) mes anio
      (grupoInfoDe db gr)).1, ?_, ?_, ?_, ?_, ?_, ?_, ?_⟩
    · have hne : (obtener_montos_configurados db mes anio).isEmpty = false := by
        have hc : confRow db mes anio g0 ∈ obtener_montos_configurados db mes anio :=
          List.mem_map_of_mem _ (List.mem_filter.mpr ⟨hg0db, by simpa using hg0act⟩)
        cases h : (obtener_montos_configurados db mes anio).isEmpty
        · rfl
        · exact absurd (List.isEmpty_iff.mp h ▸ hc) (List.not_mem_nil _)
      rw [calcular_tabla_mensual]
      dsimp only
      rw [if_neg (by simp [hne])]
      exact List.mem_append_left _
        (List.mem_map_of_mem _ (List.mem_map_of_mem _ hgi))
    · simp only [procesarGrupo, hpaso, grupoInfoDe]
    · simp only [procesarGrupo, hpaso]
    · intro hR
      simp only [procesarGrupo, hpaso, grupoInfoDe_quien, grupoInfoDe_fijoR,
        grupoInfoDe_fijoW, hR]
      simp
    · intro hW
      simp only [procesarGrupo, hpaso, grupoInfoDe_quien, grupoInfoDe_fijoR,
        grupoInfoDe_fijoW, hW]
      simp
    · simp only [procesarGrupo, grupoInfoDe_gastos]
      split_ifs with hall
      · constructor
        · intro _ g hgm
          have hv := List.all_eq_true.mp hall _
            (List.mem_map_of_mem (fun g => (g.id, g.concepto, g.monto_total)) hgm)
          simpa [verificar_pago_existente, List.any_eq_true, and_assoc] using hv
        · intro _
          rfl
      · constructor
        · intro h
          exact absurd h (by decide)
        · intro hforall
          exfalso
          apply hall
          refine List.all_eq_true.mpr fun t ht => ?_
          obtain ⟨g, hgm, rfl⟩ := List.mem_map.mp ht
          have hx := hforall g hgm
          simpa [verificar_pago_existente, List.any_eq_true, and_assoc] using hx
    · simp only [procesarGrupo, grupoInfoDe_gastos]
      split_ifs with hall
      · constructor
        · intro _ g hgm
          have hv := List.all_eq_true.mp hall _
            (List.mem_map_of_mem (fun g => (g.id, g.concepto, g.monto_total)) hgm)
          simpa [verificar_pago_existente, List.any_eq_true, and_assoc] using hv
        · intro _
          rfl
      · constructor
        · intro h
          exact absurd h (by decide)
        · intro hforall
          exfalso
          apply hall
          refine List.all_eq_true.mpr fun t ht => ?_
          obtain ⟨g, hgm, rfl⟩ := List.mem_map.mp ht
          have hx := hforall g hgm
          simpa [verificar_pago_existente, List.any_eq_true, and_assoc] using hx
  · simp [calcular_tabla_mensual, dbC4, grupoC4, gastoC4a, gastoC4b,
      obtener_montos_configurados, confRow, obtener_grupos_distribucion,
      grupoInfoDe, procesarGrupo, pasoGrupo, obtener_monto_del_mes,
      calcular_monto_mensual_segun_frecuencia, pyOrZero, verificar_pago_existente]
    norm_num
  · simp [calcular_tabla_mensual, dbC4unPago, dbC4, grupoC4, gastoC4a, gastoC4b,
      obtener_montos_configurados, confRow, obtener_grupos_distribucion,
      grupoInfoDe, procesarGrupo, pasoGrupo, obtener_monto_del_mes,
      calcular_monto_mensual_segun_frecuencia, pyOrZero, verificar_pago_existente]
  · simp [calcular_tabla_mensual, dbC4dosPagos, dbC4, grupoC4, gastoC4a, gastoC4b,
      obtener_montos_configurados, confRow, obtener_grupos_distribucion,
      grupoInfoDe, procesarGrupo, pasoGrupo, obtener_monto_del_mes,
      calcular_monto_mensual_segun_frecuencia, pyOrZero, verificar_pago_existente]

/-- Witness for C4 at `dbC4` (group of totals 40 and 60, Ricardo fixed 70),
January 2024. -/
theorem fila_grupo_correcta_witness :
    ((dbC4.gastos.map (fun g => g.id)).Nodup ∧ grupoC4 ∈ dbC4.grupos ∧
     grupoC4.activo = true ∧ miembrosActivos dbC4 grupoC4.id ≠ []) ∧
    ((∃ fila ∈ calcular_tabla_mensual dbC4 1 2024,
      fila.id = FilaId.grupo grupoC4.id ∧
      fila.monto_total = ((miembrosActivos dbC4 grupoC4.id).map
        (fun g => calcular_monto_mensual_segun_frecuencia
          (obtener_monto_del_mes dbC4 g.id 1 2024) g.frecuencia 1 2024)).sum ∧
      (grupoC4.quien_paga_fijo = "Ricardo" →
        fila.debe_ricardo = pyOrZero grupoC4.monto_fijo_ricardo ∧
        fila.debe_wendy =
          max 0 (fila.monto_total - pyOrZero grupoC4.monto_fijo_ricardo)) ∧
      (grupoC4.quien_paga_fijo = "Wendy" →
        fila.debe_wendy = pyOrZero grupoC4.monto_fijo_wendy ∧
        fila.debe_ricardo =
          max 0 (fila.monto_total - pyOrZero grupoC4.monto_fijo_wendy)) ∧
      (fila.ricardo_pago = "✅" ↔ ∀ g ∈ miembrosActivos dbC4 grupoC4.id,
        ∃ p ∈ dbC4.pagos, p.gasto_id = g.id ∧ p.mes = 1 ∧ p.anio = 2024 ∧
          p.quien_pago = "Ricardo") ∧
      (fila.wendy_pago = "✅" ↔ ∀ g ∈ miembrosActivos dbC4 grupoC4.id,
        ∃ p ∈ dbC4.pagos, p.gasto_id = g.id ∧ p.mes = 1 ∧ p.anio = 2024 ∧
          p.quien_pago = "Wendy")) ∧
    (calcular_tabla_mensual dbC4 1 2024).map
      (fun f => (f.monto_total, f.debe_ricardo, f.debe_wendy, f.ricardo_pago)) =
      [(100, 70, 30, "❌")] ∧
    (calcular_tabla_mensual dbC4unPago 1 2024).map (fun f => f.ricardo_pago) =
      ["❌"] ∧
    (calcular_tabla_mensual dbC4dosPagos 1 2024).map (fun f => f.ricardo_pago) =
      ["✅"]) :=
  ⟨⟨by decide, by simp [dbC4], rfl, by decide⟩,
   fila_grupo_correcta dbC4 1 2024 grupoC4 (by decide) (by simp [dbC4]) rfl
     (by decide)⟩

/-- **C5 (counterexample).** With five payment records all tagged week 1 in a
5-week month, `obtener_semanas_pagadas` returns `[1,1,1,1,1]` — week 1 does
NOT appear exactly once — and the statement row marks Ricardo fully paid
even though no record exists for week 2; both halves of the claim fail. -/
theorem semanas_pagadas_contraejemplo :
    obtener_semanas_pagadas dbC5 1 1 2024 "Ricardo" = [1, 1, 1, 1, 1] ∧
    (calcular_tabla_mensual dbC5 1 2024).map (fun f => f.ricardo_pago) =
      ["✅"] ∧
    ¬ 2 ∈ obtener_semanas_pagadas dbC5 1 1 2024 "Ricardo" := by
  refine ⟨by decide, by decide, by decide⟩

/-- **C5 (amended).** `obtener_semanas_pagadas` returns the week numbers of
ALL week-tagged matching payment records — sorted ascending, one entry per
record, duplicates not collapsed — and a weekly expense is marked fully paid
for a person iff the NUMBER of such records equals the number of weeks of
the month.  When no week is recorded twice and every recorded week lies in
1..M, this coincides with "every week of the month paid"; in particular
weeks 1–5 paid individually in 5-week January 2024 give `[1,2,3,4,5]` and a
`"✅"` flag, while weeks 1–4 only give `"❌"`. -/
theorem semanas_pagadas_caracterizacion (db : DB) (gasto_id mes anio : Nat)
    (quien : String) :
    List.Sorted (· ≤ ·) (obtener_semanas_pagadas db gasto_id mes anio quien) ∧
    (∀ w : Nat, w ∈ obtener_semanas_pagadas db gasto_id mes anio quien ↔
      ∃ p ∈ db.pagos, p.gasto_id = gasto_id ∧ p.mes = mes ∧ p.anio = anio ∧
        p.quien_pago = quien ∧ p.semana = some w) ∧
    (obtener_semanas_pagadas db gasto_id mes anio quien).length =
      (db.pagos.filter (fun p => p.gasto_id == gasto_id && p.mes == mes &&
        p.anio == anio && p.quien_pago == quien && p.semana.isSome)).length ∧
    (∀ gc : GastoConf, gc.frecuencia = "Semanal" →
      ((procesarGastoIndividual db mes anio gc).ricardo_pago = "✅" ↔
        (obtener_semanas_pagadas db gc.id mes anio "Ricardo").length =
          calcular_semanas_del_mes mes anio) ∧
      ((procesarGastoIndividual db mes anio gc).wendy_pago = "✅" ↔
        (obtener_semanas_pagadas db gc.id mes anio "Wendy").length =
          calcular_semanas_del_mes mes anio)) ∧
    ((obtener_semanas_pagadas db gasto_id mes anio quien).Nodup →
      (∀ w ∈ obtener_semanas_pagadas db gasto_id mes anio quien,
        1 ≤ w ∧ w ≤ calcular_semanas_del_mes mes anio) →
      ((obtener_semanas_pagadas db gasto_id mes anio quien).length =
          calcular_semanas_del_mes mes anio ↔
        ∀ k, 1 ≤ k → k ≤ calcular_semanas_del_mes mes anio →
          k ∈ obtener_semanas_pagadas db gasto_id mes anio quien)) ∧
    obtener_semanas_pagadas dbC5completo 1 1 2024 "Ricardo" = [1, 2, 3, 4, 5] ∧
    (calcular_tabla_mensual dbC5completo 1 2024).map (fun f => f.ricardo_pago) =
      ["✅"] ∧
    (calcular_tabla_mensual dbC5cuatro 1 2024).map (fun f => f.ricardo_pago) =
      ["❌"] := by
  refine ⟨List.sorted_insertionSort _ _, ?_, ?_, ?_, ?_,
    by decide, by decide, by decide⟩
  · intro w
    rw [obtener_semanas_pagadas, List.Perm.mem_iff (List.perm_insertionSort _ _)]
    constructor
    · intro hw
      obtain ⟨p, hp, hsem⟩ := List.mem_filterMap.mp hw
      obtain ⟨hpm, hpred⟩ := List.mem_filter.mp hp
      simp only [Bool.and_eq_true, beq_iff_eq] at hpred
      exact ⟨p, hpm, hpred.1.1.1.1, hpred.1.1.1.2, hpred.1.1.2, hpred.1.2, hsem⟩
    · rintro ⟨p, hpm, h1, h2, h3, h4, h5⟩
      refine List.mem_filterMap.mpr ⟨p, List.mem_filter.mpr ⟨hpm, ?_⟩, h5⟩
      simp [h1, h2, h3, h4, h5]
  · rw [obtener_semanas_pagadas,
      List.Perm.length_eq (List.perm_insertionSort _ _)]
    refine length_filterMap_isSome _ _ fun p hp => ?_
    have hpred := (List.mem_filter.mp hp).2
    simp only [Bool.and_eq_true] at hpred
    exact hpred.2
  · intro gc hsem
    constructor <;>
      · simp only [procesarGastoIndividual, hsem]
        rw [if_pos trivial]
        dsimp only
        simp only [beq_iff_eq]
        split_ifs with h <;> simp [h]
  · intro hnd hval
    constructor
    · intro hlen k hk1 hk2
      have hsub : (obtener_semanas_pagadas db gasto_id mes anio quien).toFinset ⊆
          Finset.Icc 1 (calcular_semanas_del_mes mes anio) := fun x hx =>
        Finset.mem_Icc.mpr (hval x (List.mem_toFinset.mp hx))
      have hcard : (Finset.Icc 1 (calcular_semanas_del_mes mes anio)).card ≤
          (obtener_semanas_pagadas db gasto_id mes anio quien).toFinset.card := by
        rw [List.toFinset_card_of_nodup hnd, hlen, Nat.card_Icc]
        omega
      have heq := Finset.eq_of_subset_of_card_le hsub hcard
      exact List.mem_toFinset.mp (heq ▸ Finset.mem_Icc.mpr ⟨hk1, hk2⟩)
    · intro hall
      have hsub1 : (obtener_semanas_pagadas db gasto_id mes anio quien).toFinset ⊆
          Finset.Icc 1 (calcular_semanas_del_mes mes anio) := fun x hx =>
        Finset.mem_Icc.mpr (hval x (List.mem_toFinset.mp hx))
      have hsub2 : Finset.Icc 1 (calcular_semanas_del_mes mes anio) ⊆
          (obtener_semanas_pagadas db gasto_id mes anio quien).toFinset :=
        fun k hk => List.mem_toFinset.mpr
          (hall k (Finset.mem_Icc.mp hk).1 (Finset.mem_Icc.mp hk).2)
      have heq := Finset.Subset.antisymm hsub1 hsub2
      calc (obtener_semanas_pagadas db gasto_id mes anio quien).length
          = (obtener_semanas_pagadas db gasto_id mes anio quien).toFinset.card :=
            (List.toFinset_card_of_nodup hnd).symm
        _ = (Finset.Icc 1 (calcular_semanas_del_mes mes anio)).card := by
            rw [heq]
        _ = calcular_semanas_del_mes mes anio := by
            rw [Nat.card_Icc]
            omega

/-- Witness for the amended C5 at `dbC5completo` (weeks 1–5 paid), January
2024, payer Ricardo. -/
theorem semanas_pagadas_caracterizacion_witness :
    List.Sorted (· ≤ ·) (obtener_semanas_pagadas dbC5completo 1 1 2024 "Ricardo") ∧
    (∀ w : Nat, w ∈ obtener_semanas_pagadas dbC5completo 1 1 2024 "Ricardo" ↔
      ∃ p ∈ dbC5completo.pagos, p.gasto_id = 1 ∧ p.mes = 1 ∧ p.anio = 2024 ∧
        p.quien_pago = "Ricardo" ∧ p.semana = some w) ∧
    (obtener_semanas_pagadas dbC5completo 1 1 2024 "Ricardo").length =
      (dbC5completo.pagos.filter (fun p => p.gasto_id == 1 && p.mes == 1 &&
        p.anio == 2024 && p.quien_pago == "Ricardo" && p.semana.isSome)).length ∧
    (∀ gc : GastoConf, gc.frecuencia = "Semanal" →
      ((procesarGastoIndividual dbC5completo 1 2024 gc).ricardo_pago = "✅" ↔
        (obtener_semanas_pagadas dbC5completo gc.id 1 2024 "Ricardo").length =
          calcular_semanas_del_mes 1 2024) ∧
      ((procesarGastoIndividual dbC5completo 1 2024 gc).wendy_pago = "✅" ↔
        (obtener_semanas_pagadas dbC5completo gc.id 1 2024 "Wendy").length =
          calcular_semanas_del_mes 1 2024)) ∧
    ((obtener_semanas_pagadas dbC5completo 1 1 2024 "Ricardo").Nodup →
      (∀ w ∈ obtener_semanas_pagadas dbC5completo 1 1 2024 "Ricardo",
        1 ≤ w ∧ w ≤ calcular_semanas_del_mes 1 2024) →
      ((obtener_semanas_pagadas dbC5completo 1 1 2024 "Ricardo").length =
          calcular_semanas_del_mes 1 2024 ↔
        ∀ k, 1 ≤ k → k ≤ calcular_semanas_del_mes 1 2024 →
          k ∈ obtener_semanas_pagadas dbC5completo 1 1 2024 "Ricardo")) ∧
    obtener_semanas_pagadas dbC5completo 1 1 2024 "Ricardo" = [1, 2, 3, 4, 5] ∧
    (calcular_tabla_mensual dbC5completo 1 2024).map (fun f => f.ricardo_pago) =
      ["✅"] ∧
    (calcular_tabla_mensual dbC5cuatro 1 2024).map (fun f => f.ricardo_pago) =
      ["❌"] :=
  semanas_pagadas_caracterizacion dbC5completo 1 1 2024 "Ricardo"

end GestionCasa
